import Mathlib

/-!
# LayerX: RPI command bridges and framework messaging bridge

A shallow embedding of

* `layerx_rpi_api/layerx_rpi_server_wrapper.go` (the three command handlers and
  `queueOperation`), and
* `layerx-mesos-tpi/framework_manager/framework_manager.go` (the framework
  messaging bridge),

followed by the properties established for them.

Conventions of the embedding.

* A Go `error` is an `Option GoError` (`none` is `nil`).
* Code that performs I/O is written in state-passing style: the HTTP response
  writer, the driver error channel and the HTTP client are records of the calls
  made on them, in order.
* Collaborators whose source lives in other packages (the scheduler-driver
  helpers, the JSON decoder, the HTTP client, `UPID.String`, `ToMasterInfo`,
  `newPhonyOffer`) are parameters.
* Logging calls are left out: they touch neither results nor the recorded calls.
-/

namespace LayerX

/-! ## Go errors and strings -/

/-- Go `error` values. `external` is an error produced by a collaborator, known
only through the text its `Error()` method returns; `new` and `wrap` are the
values built by `errors.New(msg, nil)` and `errors.New(msg, err)` (the same
shape serves `lxerrors.New`). -/
inductive GoError where
  | external (text : String)
  | new (message : String)
  | wrap (message : String) (cause : GoError)
  deriving DecidableEq, Repr

/-- The call `errors.New(msg, err)` / `lxerrors.New(msg, err)`: never nil. -/
def errorsNew (msg : String) (err : Option GoError) : GoError :=
  match err with
  | none => GoError.new msg
  | some cause => GoError.wrap msg cause

/-- The message an error was built with. -/
def GoError.message : GoError → String
  | GoError.external text => text
  | GoError.new message => message
  | GoError.wrap message _ => message

/-- The text of `err.Error()`: a wrapped error shows its message followed by
the text of its cause. -/
def GoError.Error : GoError → String
  | GoError.external text => text
  | GoError.new message => message
  | GoError.wrap message cause => message ++ ": " ++ cause.Error

/-- Whether `sub` occurs in `s` starting at some position of `s`. -/
def containsChars : List Char → List Char → Bool
  | [], sub => sub.isEmpty
  | c :: cs, sub => sub.isPrefixOf (c :: cs) || containsChars cs sub

/-- Go `strings.Contains(s, substr)`. -/
def stringsContains (s substr : String) : Bool :=
  containsChars s.data substr.data

/-- Go `strings.HasPrefix(s, prefix)`. -/
def stringsHasPrefix (s pre : String) : Bool :=
  pre.data.isPrefixOf s.data

/-- Go `fmt.Sprintf("%v", n)` for an `int`: the decimal rendering. -/
def sprintfV (n : Int) : String :=
  toString n

/-! ## `layerx_rpi_server_wrapper.go` -/

/-- The package variable `empty = []byte{}`. -/
def empty : List UInt8 := []

/-- The three results `([]byte, int, error)` of an action. -/
structure Triple where
  payload : List UInt8
  statusCode : Int
  err : Option GoError
  deriving DecidableEq, Repr

/-- An action `func() ([]byte, int, error)`: it may act on the scheduler driver,
whose state has type `D`. -/
abbrev Action (D : Type) := D → Triple × D

/-- The helpers of `rpi_api_helpers`, acting on the scheduler driver, and the
JSON decoder for launch directives (`json.Unmarshal` into a
`LaunchTasksMessage`, of type `M`). -/
structure RpiEnv (D M : Type) where
  CollectResources : D → Option GoError × D
  LaunchTasks : D → M → Option GoError × D
  KillTask : D → String → Option GoError × D
  Unmarshal : List UInt8 → Except GoError M

/-- An inbound request as the handlers use it: the result `(data, err)` of
`ioutil.ReadAll(req.Body)` and the path parameters. -/
structure Request where
  bodyData : List UInt8
  readErr : Option GoError
  params : String → String

/-- The closure `collectResourcesFn`. -/
def collectResourcesFn {D M : Type} (env : RpiEnv D M) : Action D := fun d =>
  match env.CollectResources d with
  | (some err, d1) =>
    (⟨empty, 500, some (errorsNew "could not handle collect resources request" (some err))⟩, d1)
  | (none, d1) => (⟨empty, 202, none⟩, d1)

/-- The closure `launchTasksFn`. -/
def launchTasksFn {D M : Type} (env : RpiEnv D M) (req : Request) : Action D := fun d =>
  match req.readErr with
  | some err => (⟨empty, 400, some (errorsNew "parsing launch tasks request" (some err))⟩, d)
  | none =>
    match env.Unmarshal req.bodyData with
    | Except.error err =>
      (⟨empty, 500,
        some (errorsNew "could not parse json to update task status message" (some err))⟩, d)
    | Except.ok launchTasksMessage =>
      match env.LaunchTasks d launchTasksMessage with
      | (some err, d1) =>
        (⟨empty, 500, some (errorsNew "could not handle launch tasks request" (some err))⟩, d1)
      | (none, d1) => (⟨empty, 202, none⟩, d1)

/-- The closure `killTaskFn`. -/
def killTaskFn {D M : Type} (env : RpiEnv D M) (req : Request) : Action D := fun d =>
  let taskId := req.params "task_id"
  match env.KillTask d taskId with
  | (some err, d1) =>
    (⟨empty, 500, some (errorsNew "could not handle kill task request" (some err))⟩, d1)
  | (none, d1) => (⟨empty, 202, none⟩, d1)

/-! ### `queueOperation`

The function creates three unbuffered channels, pushes a closure that calls `f`
and sends its three results on them in turn, and then receives from the three
channels in the same order. The embedding is the two-party machine below: the
worker goroutine of the action queue, which runs the pushed closure once, and
the caller. A send on an unbuffered channel completes together with the
matching receive, so each of the three transfers is one joint step. -/

/-- Where the pushed closure stands. -/
inductive WorkerPc where
  | queued
  | sendData
  | sendStatusCode
  | sendErr
  | finished
  deriving DecidableEq, Repr

/-- Where the caller of `queueOperation` stands. -/
inductive CallerPc where
  | recvData
  | recvStatusCode
  | recvErr
  | returned
  deriving DecidableEq, Repr

/-- State of one `queueOperation` call. -/
structure QueueState (D : Type) where
  driver : D
  invocations : Nat
  worker : WorkerPc
  locals : Option Triple
  caller : CallerPc
  data : Option (List UInt8)
  statusCode : Option Int
  err : Option (Option GoError)

/-- The state right after `Push`: the closure is queued, the caller waits on
`datac`. -/
def QueueState.init {D : Type} (d : D) : QueueState D :=
  { driver := d, invocations := 0, worker := WorkerPc.queued, locals := none,
    caller := CallerPc.recvData, data := none, statusCode := none, err := none }

/-- The enabled step, if any. -/
def QueueState.step {D : Type} (f : Action D) (s : QueueState D) : Option (QueueState D) :=
  match s.worker, s.caller, s.locals with
  | WorkerPc.queued, _, _ =>
    let r := f s.driver
    some { s with driver := r.2, invocations := s.invocations + 1,
                  worker := WorkerPc.sendData, locals := some r.1 }
  | WorkerPc.sendData, CallerPc.recvData, some t =>
    some { s with worker := WorkerPc.sendStatusCode, caller := CallerPc.recvStatusCode,
                  data := some t.payload }
  | WorkerPc.sendStatusCode, CallerPc.recvStatusCode, some t =>
    some { s with worker := WorkerPc.sendErr, caller := CallerPc.recvErr,
                  statusCode := some t.statusCode }
  | WorkerPc.sendErr, CallerPc.recvErr, some t =>
    some { s with worker := WorkerPc.finished, caller := CallerPc.returned,
                  err := some t.err }
  | _, _, _ => none

/-- Run the machine for at most `fuel` steps, stopping when no step is enabled. -/
def QueueState.run {D : Type} (f : Action D) : Nat → QueueState D → QueueState D
  | 0, s => s
  | fuel + 1, s =>
    match s.step f with
    | none => s
    | some s1 => QueueState.run f fuel s1

/-- What the caller returns, once it has received all three values. -/
def QueueState.result {D : Type} (s : QueueState D) : Option (Triple × D) :=
  match s.caller, s.data, s.statusCode, s.err with
  | CallerPc.returned, some data, some statusCode, some err =>
    some (⟨data, statusCode, err⟩, s.driver)
  | _, _, _, _ => none

/-- The method `queueOperation` run with the given number of machine steps;
`none` when the caller has not returned within them. -/
def queueOperationFuel {D : Type} (fuel : Nat) (f : Action D) (d : D) : Option (Triple × D) :=
  (QueueState.run f fuel (QueueState.init d)).result

/-- The method `queueOperation`. -/
def queueOperation {D : Type} (f : Action D) (d : D) : Option (Triple × D) :=
  queueOperationFuel 4 f d

/-- What a handler acts on: the scheduler driver, the `WriteHeader` calls made
on the response writer `res`, and the values sent on `driverErrc`. -/
structure HandlerState (D : Type) where
  driver : D
  written : List Int
  driverErrc : List GoError

/-- The handler `collectResourcesHandler`. -/
def collectResourcesHandler {D M : Type} (env : RpiEnv D M) (st : HandlerState D) :
    Option (HandlerState D) :=
  match queueOperation (collectResourcesFn env) st.driver with
  | none => none
  | some (⟨_, statusCode, err⟩, d1) =>
    match err with
    | some e =>
      some { driver := d1, written := st.written ++ [statusCode],
             driverErrc := st.driverErrc ++ [e] }
    | none => some { driver := d1, written := st.written ++ [statusCode],
                     driverErrc := st.driverErrc }

/-- The handler `launchTasksHandler`. -/
def launchTasksHandler {D M : Type} (env : RpiEnv D M) (req : Request) (st : HandlerState D) :
    Option (HandlerState D) :=
  match queueOperation (launchTasksFn env req) st.driver with
  | none => none
  | some (⟨_, statusCode, err⟩, d1) =>
    match err with
    | some e =>
      some { driver := d1, written := st.written ++ [statusCode],
             driverErrc := st.driverErrc ++ [e] }
    | none => some { driver := d1, written := st.written ++ [statusCode],
                     driverErrc := st.driverErrc }

/-- The handler `killTaskHandler`. -/
def killTaskHandler {D M : Type} (env : RpiEnv D M) (req : Request) (st : HandlerState D) :
    Option (HandlerState D) :=
  match queueOperation (killTaskFn env req) st.driver with
  | none => none
  | some (⟨_, statusCode, err⟩, d1) =>
    match err with
    | some e =>
      some { driver := d1, written := st.written ++ [statusCode],
             driverErrc := st.driverErrc ++ [e] }
    | none => some { driver := d1, written := st.written ++ [statusCode],
                     driverErrc := st.driverErrc }

/-! ## `framework_manager.go` -/

/-- The type `mesos_data.UPID`, a process address. -/
structure UPID where
  ID : String
  Host : String
  Port : String
  deriving DecidableEq, Repr

/-- The type `mesos_data.MesosState`, with the two fields set here. -/
structure MesosState where
  Version : String
  Leader : String
  deriving DecidableEq, Repr

/-- The fields of `mesosproto.TaskStatus` that `SendStatusUpdate` reads, and the
task id. -/
structure TaskStatus where
  TaskId : String
  State : Option Nat
  ExecutorId : Option String
  SlaveId : Option String
  deriving DecidableEq, Repr

/-- The type `mesosproto.StatusUpdate` as filled in by `SendStatusUpdate`. -/
structure StatusUpdate where
  FrameworkId : String
  ExecutorId : Option String
  SlaveId : Option String
  Status : TaskStatus
  Timestamp : Int
  LatestState : Option Nat
  Uuid : String
  deriving DecidableEq, Repr

/-- The three protocol messages sent by the manager. `MI` is
`mesosproto.MasterInfo` and `O` is `mesosproto.Offer`. -/
inductive Message (MI O : Type) where
  | FrameworkRegisteredMessage (FrameworkId : String) (MasterInfo : MI)
  | StatusUpdateMessage (Update : StatusUpdate)
  | ResourceOffersMessage (Offers : List O) (Pids : List String)

/-- The type `http.Response`, with the field read here. -/
structure Response where
  StatusCode : Int
  deriving DecidableEq, Repr

/-- The three results `(resp, data, err)` of `lxhttpclient.Post` and
`lxhttpclient.Get`; `data` is only ever used as `string(data)`. -/
structure HttpResult where
  resp : Option Response
  data : String
  err : Option GoError
  deriving DecidableEq, Repr

/-- One call `lxhttpclient.Post(url, path, headers, message)`. -/
structure PostCall (MI O : Type) where
  url : String
  path : String
  headers : List (String × String)
  message : Message MI O

/-- One call `lxhttpclient.Get(url, path, headers)`; the manager passes no
headers. -/
structure GetCall where
  url : String
  path : String
  deriving DecidableEq, Repr

/-- The collaborators of the manager: the HTTP client, `UPID.String`,
`MesosState.ToMasterInfo`, the constant `MESOS_VERSION` and `newPhonyOffer`. -/
structure ManagerEnv (MI O : Type) where
  Post : PostCall MI O → HttpResult
  Get : GetCall → HttpResult
  upidString : UPID → String
  ToMasterInfo : MesosState → Except GoError MI
  MESOS_VERSION : String
  newPhonyOffer : String → String → String → O

/-- The calls made so far on the collaborators, oldest first. -/
structure Net (MI O : Type) where
  posts : List (PostCall MI O)
  gets : List GetCall
  conversions : List MesosState

/-- The struct `frameworkManager`. -/
structure frameworkManager where
  masterUpid : UPID
  deriving DecidableEq, Repr

/-- How a method returning `error` ends: it returns, or it dereferences a nil
`*http.Response`. -/
inductive Outcome where
  | returned (err : Option GoError)
  | nilDereference
  deriving DecidableEq, Repr

/-- Value of a header in a header map. -/
def headerValue (headers : List (String × String)) (key : String) : Option String :=
  (headers.find? (fun kv => kv.1 == key)).map Prod.snd

/-- The method `sendMessage`. -/
def sendMessage {MI O : Type} (env : ManagerEnv MI O) (manager : frameworkManager)
    (destination : UPID) (message : Message MI O) (path : String) (net : Net MI O) :
    HttpResult × Net MI O :=
  let path := if !stringsHasPrefix path "/" then "/" ++ path else path
  let url := destination.Host ++ ":" ++ destination.Port
  let path := "/" ++ destination.ID ++ path
  let headers := [("Libprocess-From", env.upidString manager.masterUpid),
                  ("Content-Type", "application/json")]
  let call : PostCall MI O := { url := url, path := path, headers := headers, message := message }
  let r := env.Post call
  let net := { net with posts := net.posts ++ [call] }
  match r.err with
  | some err =>
    ({ r with err := some (errorsNew ("sending data(" ++ r.data ++ ") to framework") (some err)) },
      net)
  | none => (r, net)

/-- The check made on the response by the three senders once `sendMessage` has
returned without error. -/
def checkStatus (resp : Option Response) : Outcome :=
  match resp with
  | none => Outcome.nilDereference
  | some resp =>
    if !(resp.StatusCode == 200 || resp.StatusCode == 202) then
      let statusCode := sprintfV resp.StatusCode
      Outcome.returned
        (some (errorsNew ("expected 200 or 202 response from framework, got " ++ statusCode) none))
    else Outcome.returned none

/-- The method `NotifyFrameworkRegistered`. -/
def NotifyFrameworkRegistered {MI O : Type} (env : ManagerEnv MI O) (manager : frameworkManager)
    (frameworkName frameworkId : String) (frameworkUpid : UPID) (net : Net MI O) :
    Outcome × Net MI O :=
  if frameworkName == "" then
    (Outcome.returned (some (errorsNew "framework must be named" none)), net)
  else
    let masterState : MesosState :=
      { Version := env.MESOS_VERSION, Leader := env.upidString manager.masterUpid }
    let net := { net with conversions := net.conversions ++ [masterState] }
    match env.ToMasterInfo masterState with
    | Except.error err =>
      (Outcome.returned (some (errorsNew "converting master state to master info" (some err))), net)
    | Except.ok masterInfo =>
      let frameworkRegisteredMsg := Message.FrameworkRegisteredMessage frameworkId masterInfo
      let r := sendMessage env manager frameworkUpid frameworkRegisteredMsg
        "/mesos.internal.FrameworkRegisteredMessage" net
      match r.1.err with
      | some err =>
        (Outcome.returned (some (errorsNew "sending registered message to framework" (some err))),
          r.2)
      | none => (checkStatus r.1.resp, r.2)

/-- The method `SendStatusUpdate`; `uuidNew` and `now` are the values returned
by `uuid.New()` and `time.Now().Unix()` during the call. -/
def SendStatusUpdate {MI O : Type} (env : ManagerEnv MI O) (manager : frameworkManager)
    (uuidNew : String) (now : Int)
    (frameworkId : String) (frameworkUpid : UPID) (status : TaskStatus) (net : Net MI O) :
    Outcome × Net MI O :=
  let executorId : Option String := if status.ExecutorId != none then status.ExecutorId else none
  let slaveId : Option String := if status.SlaveId != none then status.SlaveId else none
  let statusUpdateUuid := uuidNew
  let statusUpdateMessage : Message MI O := Message.StatusUpdateMessage
    { FrameworkId := frameworkId, ExecutorId := executorId, SlaveId := slaveId, Status := status,
      Timestamp := now, LatestState := status.State, Uuid := statusUpdateUuid }
  let r := sendMessage env manager frameworkUpid statusUpdateMessage
    "/mesos.internal.StatusUpdateMessage" net
  match r.1.err with
  | some err =>
    (Outcome.returned (some (errorsNew "sending status update to framework" (some err))), r.2)
  | none => (checkStatus r.1.resp, r.2)

/-- The method `SendTaskCollectionOffer`. -/
def SendTaskCollectionOffer {MI O : Type} (env : ManagerEnv MI O) (manager : frameworkManager)
    (frameworkId phonyOfferId phonySlaveId phonySlavePid : String) (frameworkUpid : UPID)
    (net : Net MI O) : Outcome × Net MI O :=
  let taskCollectionOffer := env.newPhonyOffer frameworkId phonyOfferId phonySlaveId
  let offerMessage : Message MI O :=
    Message.ResourceOffersMessage [taskCollectionOffer] [phonySlavePid]
  let r := sendMessage env manager frameworkUpid offerMessage
    "/mesos.internal.ResourceOffersMessage" net
  match r.1.err with
  | some err =>
    (Outcome.returned (some (errorsNew "sending task collection offer to framework" (some err))),
      r.2)
  | none => (checkStatus r.1.resp, r.2)

/-- The method `HealthCheckFramework`; the framework id is only logged. -/
def HealthCheckFramework {MI O : Type} (env : ManagerEnv MI O) (_frameworkId : String)
    (frameworkUpid : UPID) (net : Net MI O) : (Bool × Option GoError) × Net MI O :=
  let url := frameworkUpid.Host ++ ":" ++ frameworkUpid.Port
  let call : GetCall := { url := url, path := "/" }
  let r := env.Get call
  let net := { net with gets := net.gets ++ [call] }
  match r.err with
  | some err =>
    if stringsContains err.Error "connection refused" then ((false, none), net)
    else ((false, some (errorsNew "performing health check on framework" (some err))), net)
  | none => ((true, none), net)

/-- The offers of a message (empty for the other kinds). -/
def Message.offers {MI O : Type} : Message MI O → List O
  | Message.ResourceOffersMessage Offers _ => Offers
  | _ => []

/-- The pids of a message (empty for the other kinds). -/
def Message.pids {MI O : Type} : Message MI O → List String
  | Message.ResourceOffersMessage _ Pids => Pids
  | _ => []

/-! ## Stubs used to run the code on concrete inputs -/

/-- A scheduler-driver stub: its state is the list of calls received; every call
fails when `failing` is set. The decoder stub accepts exactly the bodies that
open with a brace and hands the body on as the decoded directive. -/
def stubRpiEnv (failing : Bool) : RpiEnv (List String) (List UInt8) where
  CollectResources := fun d =>
    (if failing then some (GoError.external "driver failed") else none, d ++ ["collect"])
  LaunchTasks := fun d _ =>
    (if failing then some (GoError.external "driver failed") else none, d ++ ["launch"])
  KillTask := fun d taskId =>
    (if failing then some (GoError.external "driver failed") else none, d ++ ["kill " ++ taskId])
  Unmarshal := fun data =>
    match data with
    | 123 :: _ => Except.ok data
    | _ => Except.error (GoError.external "invalid character in body")

/-- A request whose body was read in full. -/
def stubRequest (body : List UInt8) : Request :=
  { bodyData := body, readErr := none, params := fun _ => "t1" }

/-- The bytes of the body `not-json`. -/
def notJsonBody : List UInt8 := [110, 111, 116, 45, 106, 115, 111, 110]

/-- The bytes of the body `{}`. -/
def bracesBody : List UInt8 := [123, 125]

/-- A handler state with nothing written and nothing escalated yet. -/
def freshHandlerState : HandlerState (List String) :=
  { driver := [], written := [], driverErrc := [] }

/-- A manager environment stub: every post is answered with the given status
code and no transport error; every probe ends with the given error. -/
def stubManagerEnv (status : Int) (probeErr : Option GoError) : ManagerEnv String String where
  Post := fun _ => { resp := some { StatusCode := status }, data := "", err := none }
  Get := fun _ => { resp := none, data := "", err := probeErr }
  upidString := fun u => u.ID ++ "@" ++ u.Host ++ ":" ++ u.Port
  ToMasterInfo := fun st => Except.ok st.Leader
  MESOS_VERSION := "0.25.0"
  newPhonyOffer := fun frameworkId offerId slaveId => frameworkId ++ offerId ++ slaveId

/-- The manager of a master at `master@10.0.0.1:5050`. -/
def stubManager : frameworkManager :=
  { masterUpid := { ID := "master", Host := "10.0.0.1", Port := "5050" } }

/-- A framework address. -/
def stubFrameworkUpid : UPID :=
  { ID := "scheduler", Host := "10.0.0.2", Port := "8080" }

/-- No call made yet. -/
def freshNet : Net String String :=
  { posts := [], gets := [], conversions := [] }

/-- A task status. -/
def stubTaskStatus : TaskStatus :=
  { TaskId := "t1", State := some 1, ExecutorId := none, SlaveId := some "s1" }

/-- A manager environment stub whose answers depend on the call: posts to the
status-update path of `stubFrameworkUpid` are answered 202, every other post is
answered 404; the master-info conversion fails. -/
def pathStubManagerEnv : ManagerEnv String String where
  Post := fun call =>
    if call.path == "/scheduler/mesos.internal.StatusUpdateMessage" then
      { resp := some { StatusCode := 202 }, data := "", err := none }
    else { resp := some { StatusCode := 404 }, data := "not found", err := none }
  Get := fun _ => { resp := none, data := "", err := none }
  upidString := fun u => u.ID ++ "@" ++ u.Host ++ ":" ++ u.Port
  ToMasterInfo := fun _ => Except.error (GoError.external "no leader")
  MESOS_VERSION := "0.25.0"
  newPhonyOffer := fun frameworkId offerId slaveId => frameworkId ++ offerId ++ slaveId

/-! ## Reference definition: decimal rendering -/

/-- The decimal rendering of an integer, written from its usual description and
not from the code: `0` for zero; otherwise a minus sign when the integer is
negative, followed by the base-ten digits of its absolute value, most
significant first. `sprintfV` is compared with it below. -/
def decimalChars (n : Int) : List Char :=
  if n = 0 then ['0']
  else (if n < 0 then ['-'] else []) ++ (Nat.digits 10 n.natAbs).reverse.map Nat.digitChar

/-! ## Properties of `layerx_rpi_server_wrapper.go` -/

theorem QueueState.run_four {D : Type} (f : Action D) (d : D) :
    QueueState.run f 4 (QueueState.init d) =
      { driver := (f d).2, invocations := 1, worker := WorkerPc.finished, locals := some (f d).1,
        caller := CallerPc.returned, data := some (f d).1.payload,
        statusCode := some (f d).1.statusCode, err := some (f d).1.err } := rfl

theorem QueueState.run_finished {D : Type} (f : Action D) (k : Nat) (s : QueueState D)
    (h : s.worker = WorkerPc.finished) : QueueState.run f k s = s := by
  cases k with
  | zero => rfl
  | succ k => simp [QueueState.run, QueueState.step, h]

theorem QueueState.run_add {D : Type} (f : Action D) (m k : Nat) (s : QueueState D) :
    QueueState.run f (m + k) s = QueueState.run f k (QueueState.run f m s) := by
  induction m generalizing s with
  | zero => simp [QueueState.run]
  | succ m ih =>
    rw [Nat.succ_add]
    simp only [QueueState.run]
    cases hs : s.step f with
    | none =>
      cases k with
      | zero => rfl
      | succ k => simp [QueueState.run, hs]
    | some s1 => exact ih s1

theorem queueOperation_eq {D : Type} (f : Action D) (d : D) :
    queueOperation f d = some (f d) := rfl

/-- C4. One call of `queueOperation(f)`, with an action queue that runs the
pushed closure once: the caller does return; what it returns is exactly the
triple produced by `f` (and the driver is left as one run of `f` leaves it); `f`
has been invoked exactly once; the call is then over (no step is left), so more
steps change nothing; and the caller has not returned before the fourth step,
that is, before all three values have been handed over. -/
theorem queueOperation_returns_the_action_outcome {D : Type} (f : Action D) (d : D) :
    queueOperation f d = some ((f d).1, (f d).2)
    ∧ (QueueState.run f 4 (QueueState.init d)).invocations = 1
    ∧ (QueueState.run f 4 (QueueState.init d)).step f = none
    ∧ (∀ k, queueOperationFuel (4 + k) f d = some ((f d).1, (f d).2))
    ∧ (∀ k, (QueueState.run f (4 + k) (QueueState.init d)).invocations = 1)
    ∧ queueOperationFuel 3 f d = none := by
  refine ⟨rfl, rfl, rfl, ?_, ?_, rfl⟩
  · intro k
    unfold queueOperationFuel
    rw [QueueState.run_add, QueueState.run_finished f k _ (by rw [QueueState.run_four])]
    rfl
  · intro k
    rw [QueueState.run_add, QueueState.run_finished f k _ (by rw [QueueState.run_four])]
    rfl

/-- C2. For each of the three handlers and every outcome `(out, d1)` that
`queueOperation` returns to it, the handler completes, makes exactly one more
`WriteHeader` call, with `out.statusCode`, and sends on the driver error
channel exactly `out.err` when it is non-nil and nothing when it is nil. -/
theorem handlers_write_status_once_and_escalate_errors {D M : Type} (env : RpiEnv D M)
    (req : Request) (st : HandlerState D) (out : Triple) (d1 : D) :
    (queueOperation (collectResourcesFn env) st.driver = some (out, d1) →
      collectResourcesHandler env st =
        some { driver := d1, written := st.written ++ [out.statusCode],
               driverErrc := st.driverErrc ++ out.err.toList })
    ∧ (queueOperation (launchTasksFn env req) st.driver = some (out, d1) →
      launchTasksHandler env req st =
        some { driver := d1, written := st.written ++ [out.statusCode],
               driverErrc := st.driverErrc ++ out.err.toList })
    ∧ (queueOperation (killTaskFn env req) st.driver = some (out, d1) →
      killTaskHandler env req st =
        some { driver := d1, written := st.written ++ [out.statusCode],
               driverErrc := st.driverErrc ++ out.err.toList }) := by
  refine ⟨?_, ?_, ?_⟩
  · intro h
    obtain ⟨payload, statusCode, err⟩ := out
    cases err <;> simp [collectResourcesHandler, h]
  · intro h
    obtain ⟨payload, statusCode, err⟩ := out
    cases err <;> simp [launchTasksHandler, h]
  · intro h
    obtain ⟨payload, statusCode, err⟩ := out
    cases err <;> simp [killTaskHandler, h]

/-- C2, on the stubs: with a failing driver each handler writes 500 once and
escalates one error. -/
theorem handlers_write_status_once_and_escalate_errors_witness :
    collectResourcesHandler (stubRpiEnv true) freshHandlerState =
        some { driver := ["collect"], written := [500],
               driverErrc := [GoError.wrap "could not handle collect resources request"
                                (GoError.external "driver failed")] }
    ∧ launchTasksHandler (stubRpiEnv true) (stubRequest bracesBody) freshHandlerState =
        some { driver := ["launch"], written := [500],
               driverErrc := [GoError.wrap "could not handle launch tasks request"
                                (GoError.external "driver failed")] }
    ∧ killTaskHandler (stubRpiEnv true) (stubRequest bracesBody) freshHandlerState =
        some { driver := ["kill t1"], written := [500],
               driverErrc := [GoError.wrap "could not handle kill task request"
                                (GoError.external "driver failed")] } :=
  ⟨(handlers_write_status_once_and_escalate_errors (stubRpiEnv true) (stubRequest bracesBody)
      freshHandlerState
      ⟨empty, 500, some (GoError.wrap "could not handle collect resources request"
        (GoError.external "driver failed"))⟩ ["collect"]).1 rfl,
   (handlers_write_status_once_and_escalate_errors (stubRpiEnv true) (stubRequest bracesBody)
      freshHandlerState
      ⟨empty, 500, some (GoError.wrap "could not handle launch tasks request"
        (GoError.external "driver failed"))⟩ ["launch"]).2.1 rfl,
   (handlers_write_status_once_and_escalate_errors (stubRpiEnv true) (stubRequest bracesBody)
      freshHandlerState
      ⟨empty, 500, some (GoError.wrap "could not handle kill task request"
        (GoError.external "driver failed"))⟩ ["kill t1"]).2.2 rfl⟩

/-- C3. The collect-resources action, the kill-task action and the launch-tasks
action on a body that is read and decoded successfully return
`(empty, 202, nil)` when the driver call succeeds and `(empty, 500, err)` with
a non-nil `err` when it fails; and each of the three actions, on every input,
returns the empty payload and has a nil error exactly when the status code is
202. -/
theorem actions_classify_driver_outcome {D M : Type} (env : RpiEnv D M) (req : Request) (d : D) :
    (∀ d1, env.CollectResources d = (none, d1) →
        collectResourcesFn env d = (⟨empty, 202, none⟩, d1))
    ∧ (∀ e d1, env.CollectResources d = (some e, d1) →
        ∃ err, collectResourcesFn env d = (⟨empty, 500, some err⟩, d1))
    ∧ (∀ d1, env.KillTask d (req.params "task_id") = (none, d1) →
        killTaskFn env req d = (⟨empty, 202, none⟩, d1))
    ∧ (∀ e d1, env.KillTask d (req.params "task_id") = (some e, d1) →
        ∃ err, killTaskFn env req d = (⟨empty, 500, some err⟩, d1))
    ∧ (∀ m d1, req.readErr = none → env.Unmarshal req.bodyData = Except.ok m →
        env.LaunchTasks d m = (none, d1) →
        launchTasksFn env req d = (⟨empty, 202, none⟩, d1))
    ∧ (∀ m e d1, req.readErr = none → env.Unmarshal req.bodyData = Except.ok m →
        env.LaunchTasks d m = (some e, d1) →
        ∃ err, launchTasksFn env req d = (⟨empty, 500, some err⟩, d1))
    ∧ ((collectResourcesFn env d).1.payload = [] ∧
        ((collectResourcesFn env d).1.err = none ↔ (collectResourcesFn env d).1.statusCode = 202))
    ∧ ((killTaskFn env req d).1.payload = [] ∧
        ((killTaskFn env req d).1.err = none ↔ (killTaskFn env req d).1.statusCode = 202))
    ∧ ((launchTasksFn env req d).1.payload = [] ∧
        ((launchTasksFn env req d).1.err = none ↔ (launchTasksFn env req d).1.statusCode = 202)) := by
  refine ⟨?_, ?_, ?_, ?_, ?_, ?_, ?_, ?_, ?_⟩
  · intro d1 h
    simp [collectResourcesFn, h]
  · intro e d1 h
    refine ⟨errorsNew "could not handle collect resources request" (some e), ?_⟩
    simp [collectResourcesFn, h]
  · intro d1 h
    simp [killTaskFn, h]
  · intro e d1 h
    refine ⟨errorsNew "could not handle kill task request" (some e), ?_⟩
    simp [killTaskFn, h]
  · intro m d1 hr hu hl
    simp [launchTasksFn, hr, hu, hl]
  · intro m e d1 hr hu hl
    refine ⟨errorsNew "could not handle launch tasks request" (some e), ?_⟩
    simp [launchTasksFn, hr, hu, hl]
  · cases h : env.CollectResources d with
    | mk o d1 => cases o <;> simp [collectResourcesFn, h, empty]
  · cases h : env.KillTask d (req.params "task_id") with
    | mk o d1 => cases o <;> simp [killTaskFn, h, empty]
  · cases hr : req.readErr with
    | some e => simp [launchTasksFn, hr, empty]
    | none =>
      cases hu : env.Unmarshal req.bodyData with
      | error e => simp [launchTasksFn, hr, hu, empty]
      | ok m =>
        cases hl : env.LaunchTasks d m with
        | mk o d1 => cases o <;> simp [launchTasksFn, hr, hu, hl, empty]

/-- C3, on the stubs: the three actions with a driver that succeeds and with a
driver that fails. -/
theorem actions_classify_driver_outcome_witness :
    collectResourcesFn (stubRpiEnv false) [] = (⟨empty, 202, none⟩, ["collect"])
    ∧ (∃ err, collectResourcesFn (stubRpiEnv true) [] = (⟨empty, 500, some err⟩, ["collect"]))
    ∧ killTaskFn (stubRpiEnv false) (stubRequest []) [] = (⟨empty, 202, none⟩, ["kill t1"])
    ∧ (∃ err, killTaskFn (stubRpiEnv true) (stubRequest []) [] =
        (⟨empty, 500, some err⟩, ["kill t1"]))
    ∧ launchTasksFn (stubRpiEnv false) (stubRequest bracesBody) [] =
        (⟨empty, 202, none⟩, ["launch"])
    ∧ (∃ err, launchTasksFn (stubRpiEnv true) (stubRequest bracesBody) [] =
        (⟨empty, 500, some err⟩, ["launch"])) :=
  ⟨(actions_classify_driver_outcome (stubRpiEnv false) (stubRequest []) []).1 ["collect"] rfl,
   (actions_classify_driver_outcome (stubRpiEnv true) (stubRequest []) []).2.1
      (GoError.external "driver failed") ["collect"] rfl,
   (actions_classify_driver_outcome (stubRpiEnv false) (stubRequest []) []).2.2.1
      ["kill t1"] rfl,
   (actions_classify_driver_outcome (stubRpiEnv true) (stubRequest []) []).2.2.2.1
      (GoError.external "driver failed") ["kill t1"] rfl,
   (actions_classify_driver_outcome (stubRpiEnv false) (stubRequest bracesBody) []).2.2.2.2.1
      bracesBody ["launch"] rfl rfl rfl,
   (actions_classify_driver_outcome (stubRpiEnv true) (stubRequest bracesBody) []).2.2.2.2.2.1
      bracesBody (GoError.external "driver failed") ["launch"] rfl rfl rfl⟩

theorem launchTasksFn_unmarshal_error {D M : Type} (env : RpiEnv D M) (req : Request) (d : D)
    (e : GoError) (hr : req.readErr = none) (hu : env.Unmarshal req.bodyData = Except.error e) :
    launchTasksFn env req d =
      (⟨empty, 500, some (GoError.wrap "could not parse json to update task status message" e)⟩,
        d) := by
  simp [launchTasksFn, hr, hu, errorsNew]

theorem launchTasksFn_read_error {D M : Type} (env : RpiEnv D M) (req : Request) (d : D)
    (e : GoError) (hr : req.readErr = some e) :
    launchTasksFn env req d =
      (⟨empty, 400, some (GoError.wrap "parsing launch tasks request" e)⟩, d) := by
  simp [launchTasksFn, hr, errorsNew]

/-- C1. The launch-tasks action on the body `not-json`, read in full and
rejected by the decoder: the action returns status code 500 (not 400) with a
non-nil error, and the driver is not called. -/
theorem launchTasksFn_undecodable_body_is_500 :
    launchTasksFn (stubRpiEnv false) (stubRequest notJsonBody) [] =
      (⟨empty, 500, some (GoError.wrap "could not parse json to update task status message"
          (GoError.external "invalid character in body"))⟩, [])
    ∧ (launchTasksFn (stubRpiEnv false) (stubRequest notJsonBody) []).1.statusCode ≠ 400
    ∧ launchTasksHandler (stubRpiEnv false) (stubRequest notJsonBody) freshHandlerState =
        some { driver := [], written := [500],
               driverErrc := [GoError.wrap "could not parse json to update task status message"
                                (GoError.external "invalid character in body")] } := by
  refine ⟨launchTasksFn_unmarshal_error (stubRpiEnv false) (stubRequest notJsonBody) []
    (GoError.external "invalid character in body") rfl rfl, ?_, rfl⟩
  decide

/-! ## Properties of `framework_manager.go` -/

theorem containsChars_eq_true_iff (s sub : List Char) :
    containsChars s sub = true ↔ sub <:+: s := by
  induction s with
  | nil => simp [containsChars, List.infix_nil, List.isEmpty_iff]
  | cons c cs ih =>
    simp only [containsChars, Bool.or_eq_true, List.isPrefixOf_iff_prefix, ih,
      List.infix_cons_iff]

theorem stringsContains_append_right (a b : String) :
    stringsContains (a ++ b) b = true := by
  unfold stringsContains
  rw [containsChars_eq_true_iff, String.data_append]
  exact (List.suffix_append a.data b.data).isInfix

theorem stringsHasPrefix_slash_append (t : String) :
    stringsHasPrefix ("/" ++ t) "/" = true := by
  unfold stringsHasPrefix
  rw [ List.isPrefixOf_iff_prefix, String.data_append]
  exact List.prefix_append _ _

theorem toDigitsCore_ten (fuel : Nat) : ∀ (n : Nat) (ds : List Char), 0 < n → n < fuel →
    Nat.toDigitsCore 10 fuel n ds = (Nat.digits 10 n).reverse.map Nat.digitChar ++ ds := by
  induction fuel with
  | zero => intro n ds _ h; omega
  | succ f ih =>
    intro n ds hn hf
    rw [Nat.digits_def' (by decide) hn]
    simp only [Nat.toDigitsCore]
    by_cases h0 : n / 10 = 0
    · simp [h0]
    · have hpos : 0 < n / 10 := Nat.pos_of_ne_zero h0
      have hlt : n / 10 < f := by omega
      simp only [h0, if_false]
      rw [ih (n / 10) _ hpos hlt]
      simp

theorem nat_repr_data (n : Nat) (hn : 0 < n) :
    (Nat.repr n).data = (Nat.digits 10 n).reverse.map Nat.digitChar := by
  simp [Nat.repr, Nat.toDigits, toDigitsCore_ten (n + 1) n [] hn (Nat.lt_succ_self n),
    List.asString]

theorem sprintfV_data (n : Int) : (sprintfV n).data = decimalChars n := by
  unfold decimalChars sprintfV
  cases n with
  | ofNat m =>
    cases m with
    | zero => rfl
    | succ k =>
      have h1 : ¬ (Int.ofNat (k + 1) = 0) := by
        intro h
        have h3 : ((k + 1 : Nat) : Int) = 0 := h
        omega
      have h2 : ¬ (Int.ofNat (k + 1) < 0) := by
        intro h
        have := Int.ofNat_nonneg (k + 1)
        exact absurd h (not_lt.mpr this)
      simp only [h1, h2, if_false]
      show (Nat.repr (k + 1)).data = _
      rw [nat_repr_data (k + 1) (Nat.succ_pos k)]
      simp [Int.natAbs]
  | negSucc m =>
    have h1 : ¬ (Int.negSucc m = 0) := by
      intro h
      cases h
    have h2 : Int.negSucc m < 0 := Int.negSucc_lt_zero m
    simp only [h1, h2, if_false, if_true]
    show ("-" ++ Nat.repr (m + 1)).data = _
    rw [String.data_append, nat_repr_data (m + 1) (Nat.succ_pos m)]
    simp [Int.natAbs]

theorem sendMessage_accepted_at {MI O : Type} (env : ManagerEnv MI O)
    (manager : frameworkManager) (destination : UPID) (message : Message MI O) (path : String)
    (net : Net MI O) (s : Int)
    (hp : stringsHasPrefix path "/" = true)
    (hresp : (env.Post { url := destination.Host ++ ":" ++ destination.Port,
                         path := "/" ++ destination.ID ++ path,
                         headers := [("Libprocess-From", env.upidString manager.masterUpid),
                                     ("Content-Type", "application/json")],
                         message := message }).resp = some { StatusCode := s })
    (herr : (env.Post { url := destination.Host ++ ":" ++ destination.Port,
                        path := "/" ++ destination.ID ++ path,
                        headers := [("Libprocess-From", env.upidString manager.masterUpid),
                                    ("Content-Type", "application/json")],
                        message := message }).err = none) :
    (sendMessage env manager destination message path net).1.err = none
    ∧ (sendMessage env manager destination message path net).1.resp = some { StatusCode := s } := by
  simp [sendMessage, hp, herr, hresp]

theorem checkStatus_iff (s : Int) :
    checkStatus (some { StatusCode := s }) = Outcome.returned none ↔ (s = 200 ∨ s = 202) := by
  unfold checkStatus
  by_cases h1 : s = 200
  · simp [h1]
  · by_cases h2 : s = 202
    · simp [h2]
    · simp [h1, h2]

theorem checkStatus_rejected (s : Int) (h : ¬ (s = 200 ∨ s = 202)) :
    checkStatus (some { StatusCode := s }) =
      Outcome.returned
        (some (GoError.new ("expected 200 or 202 response from framework, got " ++ sprintfV s))) := by
  have h1 : ¬ s = 200 := fun e => h (Or.inl e)
  have h2 : ¬ s = 202 := fun e => h (Or.inr e)
  simp [checkStatus, h1, h2, errorsNew]

theorem checkStatus_message (s : Int) (h : ¬ (s = 200 ∨ s = 202)) :
    ∃ e, checkStatus (some { StatusCode := s }) = Outcome.returned (some e)
      ∧ e.message = "expected 200 or 202 response from framework, got " ++ sprintfV s
      ∧ (sprintfV s).data = decimalChars s
      ∧ decimalChars s <:+: e.message.data
      ∧ decimalChars s <:+: e.Error.data
      ∧ stringsContains e.message (sprintfV s) = true
      ∧ stringsContains e.Error (sprintfV s) = true := by
  have hin : decimalChars s <:+:
      ("expected 200 or 202 response from framework, got " ++ sprintfV s).data := by
    rw [String.data_append, ← sprintfV_data]
    exact (List.suffix_append _ _).isInfix
  exact ⟨_, checkStatus_rejected s h, rfl, sprintfV_data s, hin, hin,
    stringsContains_append_right _ _, stringsContains_append_right _ _⟩

theorem checkStatus_accepts (s : Int) :
    (checkStatus (some { StatusCode := s }) = Outcome.returned none ↔ (s = 200 ∨ s = 202))
    ∧ (¬ (s = 200 ∨ s = 202) → ∃ e,
        checkStatus (some { StatusCode := s }) = Outcome.returned (some e)
        ∧ e.message = "expected 200 or 202 response from framework, got " ++ sprintfV s
        ∧ (sprintfV s).data = decimalChars s
        ∧ decimalChars s <:+: e.message.data
        ∧ decimalChars s <:+: e.Error.data
        ∧ stringsContains e.message (sprintfV s) = true
        ∧ stringsContains e.Error (sprintfV s) = true) :=
  ⟨checkStatus_iff s, checkStatus_message s⟩

theorem sendMessage_posts {MI O : Type} (env : ManagerEnv MI O) (manager : frameworkManager)
    (destination : UPID) (message : Message MI O) (path : String) (net : Net MI O) :
    (sendMessage env manager destination message path net).2.posts =
      net.posts ++ [{ url := destination.Host ++ ":" ++ destination.Port,
                      path := "/" ++ destination.ID ++
                        (if stringsHasPrefix path "/" = true then path else "/" ++ path),
                      headers := [("Libprocess-From", env.upidString manager.masterUpid),
                                  ("Content-Type", "application/json")],
                      message := message }] := by
  unfold sendMessage
  by_cases hp : stringsHasPrefix path "/" = true
  · simp only [hp]
    split <;> simp
  · simp only [hp]
    split <;> simp

theorem sendTaskCollectionOffer_net {MI O : Type} (env : ManagerEnv MI O)
    (manager : frameworkManager)
    (frameworkId phonyOfferId phonySlaveId phonySlavePid : String) (frameworkUpid : UPID)
    (net : Net MI O) :
    (SendTaskCollectionOffer env manager frameworkId phonyOfferId phonySlaveId phonySlavePid
      frameworkUpid net).2 =
      (sendMessage env manager frameworkUpid
        (Message.ResourceOffersMessage [env.newPhonyOffer frameworkId phonyOfferId phonySlaveId]
          [phonySlavePid])
        "/mesos.internal.ResourceOffersMessage" net).2 := by
  unfold SendTaskCollectionOffer
  simp only []
  split <;> rfl

/-- C5. Let `s` be the status code of the response that the transport returns,
without a transport error, to the very post an operation makes (the transport
may answer any other call differently). Then each of
`NotifyFrameworkRegistered` (with a non-empty name and a master-info conversion
that succeeds), `SendStatusUpdate` and `SendTaskCollectionOffer` returns nil
exactly when `s` is 200 or 202, and otherwise returns an error whose message is
`expected 200 or 202 response from framework, got ` followed by
`Sprintf("%v", s)`; that rendering is the decimal rendering of `s`
(`decimalChars s`), which therefore occurs in the message and in the error
text. -/
theorem senders_accept_only_200_or_202 {MI O : Type} (env : ManagerEnv MI O)
    (manager : frameworkManager) (net : Net MI O) (s : Int)
    (frameworkName frameworkId : String) (frameworkUpid : UPID) (masterInfo : MI)
    (uuidNew : String) (now : Int) (status : TaskStatus)
    (phonyOfferId phonySlaveId phonySlavePid : String) :
    (frameworkName ≠ "" →
      env.ToMasterInfo
        { Version := env.MESOS_VERSION, Leader := env.upidString manager.masterUpid } =
          Except.ok masterInfo →
      (env.Post { url := frameworkUpid.Host ++ ":" ++ frameworkUpid.Port,
                  path := "/" ++ frameworkUpid.ID ++ "/mesos.internal.FrameworkRegisteredMessage",
                  headers := [("Libprocess-From", env.upidString manager.masterUpid),
                              ("Content-Type", "application/json")],
                  message := Message.FrameworkRegisteredMessage frameworkId masterInfo }).resp =
        some { StatusCode := s } →
      (env.Post { url := frameworkUpid.Host ++ ":" ++ frameworkUpid.Port,
                  path := "/" ++ frameworkUpid.ID ++ "/mesos.internal.FrameworkRegisteredMessage",
                  headers := [("Libprocess-From", env.upidString manager.masterUpid),
                              ("Content-Type", "application/json")],
                  message := Message.FrameworkRegisteredMessage frameworkId masterInfo }).err = none →
        (((NotifyFrameworkRegistered env manager frameworkName frameworkId frameworkUpid net).1 =
            Outcome.returned none ↔ (s = 200 ∨ s = 202))
        ∧ (¬ (s = 200 ∨ s = 202) → ∃ e,
            (NotifyFrameworkRegistered env manager frameworkName frameworkId frameworkUpid net).1 =
              Outcome.returned (some e)
            ∧ e.message = "expected 200 or 202 response from framework, got " ++ sprintfV s
            ∧ (sprintfV s).data = decimalChars s
            ∧ decimalChars s <:+: e.message.data
            ∧ decimalChars s <:+: e.Error.data
            ∧ stringsContains e.message (sprintfV s) = true
            ∧ stringsContains e.Error (sprintfV s) = true)))
    ∧ (
      (env.Post { url := frameworkUpid.Host ++ ":" ++ frameworkUpid.Port,
                  path := "/" ++ frameworkUpid.ID ++ "/mesos.internal.StatusUpdateMessage",
                  headers := [("Libprocess-From", env.upidString manager.masterUpid),
                              ("Content-Type", "application/json")],
                  message := Message.StatusUpdateMessage
                      { FrameworkId := frameworkId, ExecutorId := status.ExecutorId,
                        SlaveId := status.SlaveId, Status := status, Timestamp := now,
                        LatestState := status.State, Uuid := uuidNew } }).resp =
        some { StatusCode := s } →
      (env.Post { url := frameworkUpid.Host ++ ":" ++ frameworkUpid.Port,
                  path := "/" ++ frameworkUpid.ID ++ "/mesos.internal.StatusUpdateMessage",
                  headers := [("Libprocess-From", env.upidString manager.masterUpid),
                              ("Content-Type", "application/json")],
                  message := Message.StatusUpdateMessage
                      { FrameworkId := frameworkId, ExecutorId := status.ExecutorId,
                        SlaveId := status.SlaveId, Status := status, Timestamp := now,
                        LatestState := status.State, Uuid := uuidNew } }).err = none →
        (((SendStatusUpdate env manager uuidNew now frameworkId frameworkUpid status net).1 =
            Outcome.returned none ↔ (s = 200 ∨ s = 202))
        ∧ (¬ (s = 200 ∨ s = 202) → ∃ e,
            (SendStatusUpdate env manager uuidNew now frameworkId frameworkUpid status net).1 =
              Outcome.returned (some e)
            ∧ e.message = "expected 200 or 202 response from framework, got " ++ sprintfV s
            ∧ (sprintfV s).data = decimalChars s
            ∧ decimalChars s <:+: e.message.data
            ∧ decimalChars s <:+: e.Error.data
            ∧ stringsContains e.message (sprintfV s) = true
            ∧ stringsContains e.Error (sprintfV s) = true)))
    ∧ (
      (env.Post { url := frameworkUpid.Host ++ ":" ++ frameworkUpid.Port,
                  path := "/" ++ frameworkUpid.ID ++ "/mesos.internal.ResourceOffersMessage",
                  headers := [("Libprocess-From", env.upidString manager.masterUpid),
                              ("Content-Type", "application/json")],
                  message := Message.ResourceOffersMessage
                      [env.newPhonyOffer frameworkId phonyOfferId phonySlaveId] [phonySlavePid] }).resp =
        some { StatusCode := s } →
      (env.Post { url := frameworkUpid.Host ++ ":" ++ frameworkUpid.Port,
                  path := "/" ++ frameworkUpid.ID ++ "/mesos.internal.ResourceOffersMessage",
                  headers := [("Libprocess-From", env.upidString manager.masterUpid),
                              ("Content-Type", "application/json")],
                  message := Message.ResourceOffersMessage
                      [env.newPhonyOffer frameworkId phonyOfferId phonySlaveId] [phonySlavePid] }).err = none →
        (((SendTaskCollectionOffer env manager frameworkId phonyOfferId phonySlaveId phonySlavePid
            frameworkUpid net).1 =
            Outcome.returned none ↔ (s = 200 ∨ s = 202))
        ∧ (¬ (s = 200 ∨ s = 202) → ∃ e,
            (SendTaskCollectionOffer env manager frameworkId phonyOfferId phonySlaveId phonySlavePid
            frameworkUpid net).1 =
              Outcome.returned (some e)
            ∧ e.message = "expected 200 or 202 response from framework, got " ++ sprintfV s
            ∧ (sprintfV s).data = decimalChars s
            ∧ decimalChars s <:+: e.message.data
            ∧ decimalChars s <:+: e.Error.data
            ∧ stringsContains e.message (sprintfV s) = true
            ∧ stringsContains e.Error (sprintfV s) = true))) := by
  refine ⟨?_, ?_, ?_⟩
  · intro hname hconv hresp herr
    have hs := sendMessage_accepted_at env manager frameworkUpid
      (Message.FrameworkRegisteredMessage frameworkId masterInfo)
      "/mesos.internal.FrameworkRegisteredMessage"
      { net with conversions := net.conversions ++
          [{ Version := env.MESOS_VERSION, Leader := env.upidString manager.masterUpid }] }
      s (by decide) hresp herr
    have hx : (NotifyFrameworkRegistered env manager frameworkName frameworkId frameworkUpid
        net).1 = checkStatus (some { StatusCode := s }) := by
      simp [NotifyFrameworkRegistered, hname, hconv, hs.1, hs.2]
    rw [hx]
    exact checkStatus_accepts s
  · intro hresp herr
    have he : (if (status.ExecutorId != none) = true then status.ExecutorId else none) =
        status.ExecutorId := by
      cases status.ExecutorId <;> rfl
    have hl : (if (status.SlaveId != none) = true then status.SlaveId else none) =
        status.SlaveId := by
      cases status.SlaveId <;> rfl
    have hx : (SendStatusUpdate env manager uuidNew now frameworkId frameworkUpid status net).1 =
        checkStatus (some { StatusCode := s }) := by
      unfold SendStatusUpdate
      simp only [he, hl]
      rw [(sendMessage_accepted_at env manager frameworkUpid _ _ net s (by decide) hresp herr).1,
        (sendMessage_accepted_at env manager frameworkUpid _ _ net s (by decide) hresp herr).2]
    rw [hx]
    exact checkStatus_accepts s
  · intro hresp herr
    have hx : (SendTaskCollectionOffer env manager frameworkId phonyOfferId phonySlaveId
        phonySlavePid frameworkUpid net).1 = checkStatus (some { StatusCode := s }) := by
      unfold SendTaskCollectionOffer
      simp only []
      rw [(sendMessage_accepted_at env manager frameworkUpid _ _ net s (by decide) hresp herr).1,
        (sendMessage_accepted_at env manager frameworkUpid _ _ net s (by decide) hresp herr).2]
    rw [hx]
    exact checkStatus_accepts s

/-- C5, on the stubs. A framework that answers 404 to the registration post:
the error message ends in the literal `404`. A transport that answers 202 on
the status-update path and 404 elsewhere, and whose master-info conversion
fails: `SendStatusUpdate` returns nil and `SendTaskCollectionOffer` returns the
404 error. -/
theorem senders_accept_only_200_or_202_witness :
    (∃ e,
        (NotifyFrameworkRegistered (stubManagerEnv 404 none) stubManager "fw" "fw-1"
          stubFrameworkUpid freshNet).1 = Outcome.returned (some e)
        ∧ e.message = "expected 200 or 202 response from framework, got 404"
        ∧ ['4', '0', '4'] <:+: e.message.data
        ∧ stringsContains e.message "404" = true)
    ∧ (SendStatusUpdate pathStubManagerEnv stubManager "uuid-1" 0 "fw-1" stubFrameworkUpid
        stubTaskStatus freshNet).1 = Outcome.returned none
    ∧ (∃ e,
        (SendTaskCollectionOffer pathStubManagerEnv stubManager "fw-1" "o1" "s1"
          "slave(1)@10.0.0.3:5051" stubFrameworkUpid freshNet).1 = Outcome.returned (some e)
        ∧ e.message = "expected 200 or 202 response from framework, got 404"
        ∧ ['4', '0', '4'] <:+: e.message.data
        ∧ stringsContains e.message "404" = true) := by
  refine ⟨?_, ?_, ?_⟩
  · obtain ⟨e, h1, h2, h3, h4, _, h6, _⟩ :=
      ((senders_accept_only_200_or_202 (stubManagerEnv 404 none) stubManager freshNet 404
        "fw" "fw-1" stubFrameworkUpid "master@10.0.0.1:5050" "uuid-1" 0 stubTaskStatus
        "o1" "s1" "slave(1)@10.0.0.3:5051").1 (by decide) rfl rfl rfl).2 (by decide)
    have h7 : (sprintfV 404).data <:+: e.message.data := h3 ▸ h4
    exact ⟨e, h1, h2, h7, h6⟩
  · exact ((senders_accept_only_200_or_202 pathStubManagerEnv stubManager freshNet 202
        "fw" "fw-1" stubFrameworkUpid "unused" "uuid-1" 0 stubTaskStatus
        "o1" "s1" "slave(1)@10.0.0.3:5051").2.1 rfl rfl).1.mpr (Or.inr rfl)
  · obtain ⟨e, h1, h2, h3, h4, _, h6, _⟩ :=
      ((senders_accept_only_200_or_202 pathStubManagerEnv stubManager freshNet 404
        "fw" "fw-1" stubFrameworkUpid "unused" "uuid-1" 0 stubTaskStatus
        "o1" "s1" "slave(1)@10.0.0.3:5051").2.2 rfl rfl).2 (by decide)
    have h7 : (sprintfV 404).data <:+: e.message.data := h3 ▸ h4
    exact ⟨e, h1, h2, h7, h6⟩

/-- C6. With an empty framework name `NotifyFrameworkRegistered` returns a
non-nil error and leaves the record of calls untouched: no post, no probe and
no master-info conversion is made. -/
theorem notifyFrameworkRegistered_empty_name {MI O : Type} (env : ManagerEnv MI O)
    (manager : frameworkManager) (frameworkId : String) (frameworkUpid : UPID) (net : Net MI O) :
    (∃ e, (NotifyFrameworkRegistered env manager "" frameworkId frameworkUpid net).1 =
        Outcome.returned (some e))
    ∧ (NotifyFrameworkRegistered env manager "" frameworkId frameworkUpid net).2 = net
    ∧ (NotifyFrameworkRegistered env manager "" frameworkId frameworkUpid net).2.posts = net.posts
    ∧ (NotifyFrameworkRegistered env manager "" frameworkId frameworkUpid net).2.conversions =
        net.conversions := by
  simp [NotifyFrameworkRegistered]

/-- C7. `HealthCheckFramework` returns `(true, nil)` when the probe returns no
error, `(false, nil)` when the text of the probe error contains
`connection refused`, and `(false, err)` with a non-nil `err` for every other
probe error; it never returns `true` together with an error. -/
theorem healthCheckFramework_cases {MI O : Type} (env : ManagerEnv MI O) (frameworkId : String)
    (frameworkUpid : UPID) (net : Net MI O) :
    ((env.Get { url := frameworkUpid.Host ++ ":" ++ frameworkUpid.Port, path := "/" }).err = none →
        (HealthCheckFramework env frameworkId frameworkUpid net).1 = (true, none))
    ∧ (∀ e, (env.Get { url := frameworkUpid.Host ++ ":" ++ frameworkUpid.Port, path := "/" }).err =
          some e → stringsContains e.Error "connection refused" = true →
        (HealthCheckFramework env frameworkId frameworkUpid net).1 = (false, none))
    ∧ (∀ e, (env.Get { url := frameworkUpid.Host ++ ":" ++ frameworkUpid.Port, path := "/" }).err =
          some e → stringsContains e.Error "connection refused" = false →
        (HealthCheckFramework env frameworkId frameworkUpid net).1 =
          (false, some (GoError.wrap "performing health check on framework" e)))
    ∧ (∀ e, (HealthCheckFramework env frameworkId frameworkUpid net).1 ≠ (true, some e)) := by
  refine ⟨?_, ?_, ?_, ?_⟩
  · intro h
    simp [HealthCheckFramework, h]
  · intro e h hc
    simp [HealthCheckFramework, h, hc]
  · intro e h hc
    simp [HealthCheckFramework, h, hc, errorsNew]
  · intro e
    cases h : (env.Get { url := frameworkUpid.Host ++ ":" ++ frameworkUpid.Port, path := "/" }).err with
    | none => simp [HealthCheckFramework, h]
    | some e1 =>
      cases hc : stringsContains e1.Error "connection refused" <;>
        simp [HealthCheckFramework, h, hc]

/-- C7, on the stubs: a probe that succeeds, one refused and one timing out. -/
theorem healthCheckFramework_cases_witness :
    (HealthCheckFramework (stubManagerEnv 200 none) "fw-1" stubFrameworkUpid freshNet).1 =
        (true, none)
    ∧ (HealthCheckFramework
          (stubManagerEnv 200 (some (GoError.external "dial tcp: connection refused")))
          "fw-1" stubFrameworkUpid freshNet).1 = (false, none)
    ∧ (HealthCheckFramework (stubManagerEnv 200 (some (GoError.external "i/o timeout")))
          "fw-1" stubFrameworkUpid freshNet).1 =
        (false, some (GoError.wrap "performing health check on framework"
          (GoError.external "i/o timeout"))) :=
  ⟨(healthCheckFramework_cases (stubManagerEnv 200 none) "fw-1" stubFrameworkUpid freshNet).1 rfl,
   (healthCheckFramework_cases
      (stubManagerEnv 200 (some (GoError.external "dial tcp: connection refused")))
      "fw-1" stubFrameworkUpid freshNet).2.1 (GoError.external "dial tcp: connection refused")
      rfl (by decide),
   (healthCheckFramework_cases (stubManagerEnv 200 (some (GoError.external "i/o timeout")))
      "fw-1" stubFrameworkUpid freshNet).2.2.1 (GoError.external "i/o timeout")
      rfl (by decide)⟩

/-- C8. `SendTaskCollectionOffer` makes exactly one post; its message is a
resource-offers message whose offer list has length one (the phony offer) and
whose pid list has length one, its single element being the given slave pid. -/
theorem sendTaskCollectionOffer_one_offer_one_pid {MI O : Type} (env : ManagerEnv MI O)
    (manager : frameworkManager)
    (frameworkId phonyOfferId phonySlaveId phonySlavePid : String) (frameworkUpid : UPID)
    (net : Net MI O) :
    ∃ call : PostCall MI O,
      (SendTaskCollectionOffer env manager frameworkId phonyOfferId phonySlaveId phonySlavePid
        frameworkUpid net).2.posts = net.posts ++ [call]
      ∧ call.message = Message.ResourceOffersMessage
          [env.newPhonyOffer frameworkId phonyOfferId phonySlaveId] [phonySlavePid]
      ∧ call.message.offers.length = 1
      ∧ call.message.pids.length = 1
      ∧ call.message.pids = [phonySlavePid] := by
  refine ⟨{ url := frameworkUpid.Host ++ ":" ++ frameworkUpid.Port,
            path := "/" ++ frameworkUpid.ID ++ "/mesos.internal.ResourceOffersMessage",
            headers := [("Libprocess-From", env.upidString manager.masterUpid),
                        ("Content-Type", "application/json")],
            message := Message.ResourceOffersMessage
              [env.newPhonyOffer frameworkId phonyOfferId phonySlaveId] [phonySlavePid] },
          ?_, rfl, rfl, rfl, rfl⟩
  have hp : stringsHasPrefix "/mesos.internal.ResourceOffersMessage" "/" = true := by decide
  rw [sendTaskCollectionOffer_net, sendMessage_posts]
  simp only [hp, if_true]

/-- C9. For a destination `(Host, Port, ID)` and a message-type name `t`,
`sendMessage` makes exactly one post, to the URL `Host ++ ":" ++ Port`, with
path `"/" ++ ID ++ "/" ++ t`, with the `Libprocess-From` header set to the
string of the manager's own master address, and carrying the message it was
given; this holds when the name is passed as `"/" ++ t`, and when it is passed
as `t` itself, `t` having no leading `/`. -/
theorem sendMessage_url_path_and_sender {MI O : Type} (env : ManagerEnv MI O)
    (manager : frameworkManager) (destination : UPID) (message : Message MI O) (t : String)
    (net : Net MI O) :
    (sendMessage env manager destination message ("/" ++ t) net).2.posts =
        net.posts ++ [{ url := destination.Host ++ ":" ++ destination.Port,
                        path := "/" ++ destination.ID ++ "/" ++ t,
                        headers := [("Libprocess-From", env.upidString manager.masterUpid),
                                    ("Content-Type", "application/json")],
                        message := message }]
    ∧ (stringsHasPrefix t "/" = false →
        (sendMessage env manager destination message t net).2.posts =
          net.posts ++ [{ url := destination.Host ++ ":" ++ destination.Port,
                          path := "/" ++ destination.ID ++ "/" ++ t,
                          headers := [("Libprocess-From", env.upidString manager.masterUpid),
                                      ("Content-Type", "application/json")],
                          message := message }])
    ∧ headerValue [("Libprocess-From", env.upidString manager.masterUpid),
                   ("Content-Type", "application/json")] "Libprocess-From" =
        some (env.upidString manager.masterUpid) := by
  refine ⟨?_, ?_, ?_⟩
  · rw [sendMessage_posts]
    simp [stringsHasPrefix_slash_append, String.append_assoc]
  · intro ht
    rw [sendMessage_posts]
    simp [ht, String.append_assoc]
  · simp [headerValue]

/-- C9, on the stubs: the type name passed without its leading `/`. -/
theorem sendMessage_url_path_and_sender_witness :
    (sendMessage (stubManagerEnv 202 none) stubManager stubFrameworkUpid
        (Message.ResourceOffersMessage ["o1"] ["p1"]) "mesos.internal.ResourceOffersMessage"
        freshNet).2.posts =
      [{ url := "10.0.0.2:8080",
         path := "/scheduler/mesos.internal.ResourceOffersMessage",
         headers := [("Libprocess-From", "master@10.0.0.1:5050"),
                     ("Content-Type", "application/json")],
         message := Message.ResourceOffersMessage ["o1"] ["p1"] }] :=
  (sendMessage_url_path_and_sender (stubManagerEnv 202 none) stubManager stubFrameworkUpid
    (Message.ResourceOffersMessage ["o1"] ["p1"]) "mesos.internal.ResourceOffersMessage"
    freshNet).2.1 (by decide)

end LayerX
